import Mathlib

/-!
Verification of the agent-session / grant-based authorization handshake
implemented (in near-identical form) by
`plugins/fwf-public-skills/skills/fresh-auth/scripts/notion-query.js` and
`plugins/fwf-public-skills/skills/fresh-auth/scripts/office-cli.js`.

The JavaScript sources are shallowly embedded as follows.

* JS strings are Lean `String`s.  A JS value that is a string, `null` or
  `undefined` is `Option String`, with `none` modelling both `null` and
  `undefined` (the code only distinguishes them through truthiness and
  strict equality with string literals, where they behave the same).
* JS truthiness of such a value is `truthyS` (the empty string is falsy).
* Network I/O (`fetch`), the wall clock (`Date.now()`), and `setTimeout`
  are external effects: they are modelled as explicit oracle parameters
  (a response for every request index, a duration for every fetch, a
  fixed 2000 ms per sleep) and the functions return, besides their
  result, the observable trace (requests issued, sleeps performed,
  messages printed).
* `process.exit(1)` and thrown errors are terminal outcomes of the
  embedded functions, represented by dedicated constructors.
* The error payloads the broker returns are JSON objects; the scripts
  only ever read the fields `error`, `message`, `connectUrl`,
  `reauthorizeUrl`, `elevateUrl`, `missingScopes`, `object` and the
  nested `details` object, so payloads are embedded as a structure with
  exactly those optional fields.  JSON keys explicitly bound to `null`
  are modelled as absent fields.
-/

/-! ## JS semantics helpers -/

/-- Whitespace as recognised by JavaScript `String.prototype.trim`
(restricted to the ASCII whitespace characters; the exotic Unicode
whitespace code points never occur in the data handled here). -/
def isJsWs (c : Char) : Bool :=
  [' ', '\t', '\n', '\r', '\x0b', '\x0c'].contains c

/-- The character-list form of JS `trim`: drop whitespace from both ends. -/
def trimChars (l : List Char) : List Char :=
  (l.dropWhile isJsWs).rdropWhile isJsWs

/-- JS `s.trim()`. -/
def jsTrim (s : String) : String :=
  ⟨trimChars s.data⟩

/-- Truthiness of a JS string-or-nullish value: `null`, `undefined` and
the empty string are falsy, every other string is truthy. -/
def truthyS (o : Option String) : Bool :=
  match o with
  | none => false
  | some s => s != ""

/-- JS `a || b` for a string-or-nullish `a` and a string default `b`. -/
def jsOr (a : Option String) (b : String) : String :=
  if truthyS a then a.getD "" else b

/-- JS `a || b` where both operands are string-or-nullish; returns `b`
when `a` is falsy (source pattern `data.message || data.error`). -/
def jsOr2 (a b : Option String) : String :=
  if truthyS a then a.getD "" else b.getD ""

/-! ## Auth error payloads (§4.2 AuthErrorPayload) -/

/-- The flat fields of a broker auth-error payload that the two scripts
inspect.  `none` models an absent (or `null`/`undefined`) field. -/
structure AuthFields where
  error : Option String := none
  message : Option String := none
  connectUrl : Option String := none
  reauthorizeUrl : Option String := none
  elevateUrl : Option String := none
  missingScopes : Option (List String) := none
deriving DecidableEq

/-- A parsed error body as received on the wire: the flat fields plus the
optional nested `details` object (merged by `normalizeAuthError` in
notion-query.js) and the `object` field checked by the Notion success
path. -/
structure AuthData extends AuthFields where
  details : Option AuthFields := none
  object : Option String := none
deriving DecidableEq

/-- Field merge used by the JS object spread `{...data, ...details}`:
a field present in `details` overrides the top-level field. -/
def overrideField {α : Type} (det top : Option α) : Option α :=
  match det with
  | some v => some v
  | none => top

/-- The three error codes that trigger the automatic grant request
(`no_grant`, `grant_expired`, `single_use_exhausted`). -/
def retryableCodes : List String :=
  ["no_grant", "grant_expired", "single_use_exhausted"]

/-- The remediation kinds produced by `describeAuthError` (§4.2).  The
concrete stderr remediation text printed by the scripts is abstracted to
the kind; the kind determines which remediation message is printed. -/
inductive AuthKind where
  | noSession
  | noGrant
  | accountNotLinked
  | scopeOrTokenExpired
  | elevationRequired
  | generic
deriving DecidableEq

namespace NotionQuery

/-- notion-query.js `normalizeAuthError`: spread the nested `details`
object (when present) over the top-level payload; a nullish `data`
yields the empty object. -/
def normalizeAuthError (d : Option AuthData) : AuthFields :=
  match d with
  | none => {}
  | some a =>
    match a.details with
    | none => a.toAuthFields
    | some det =>
      { error := overrideField det.error a.error
        message := overrideField det.message a.message
        connectUrl := overrideField det.connectUrl a.connectUrl
        reauthorizeUrl := overrideField det.reauthorizeUrl a.reauthorizeUrl
        elevateUrl := overrideField det.elevateUrl a.elevateUrl
        missingScopes := overrideField det.missingScopes a.missingScopes }

/-- notion-query.js `describeAuthError`, abstracted to the remediation
kind it selects (the function itself prints the remediation message for
that kind to stderr and returns). -/
def describeAuthError (d : Option AuthData) : AuthKind :=
  let e := normalizeAuthError d
  if e.error == some "no_agent_session" then .noSession
  else if decide (jsOr e.error "" ∈ retryableCodes) then .noGrant
  else if (e.error == some "no_oauth_token") && truthyS e.connectUrl then .accountNotLinked
  else if truthyS e.reauthorizeUrl then .scopeOrTokenExpired
  else if truthyS e.elevateUrl then .elevationRequired
  else .generic

/-- notion-query.js `isAutoRequestError`: normalize, return false when
the `error` field is falsy, otherwise test membership in the retryable
codes. -/
def isAutoRequestError (d : Option AuthData) : Bool :=
  let e := normalizeAuthError d
  if truthyS e.error then decide (e.error.getD "" ∈ retryableCodes) else false

end NotionQuery

namespace OfficeCli

/-- office-cli.js `describeAuthError` (its `service` argument only
affects the printed text, not the selected kind), abstracted to the
remediation kind.  office-cli does not normalize a `details` object. -/
def describeAuthError (e : AuthFields) : AuthKind :=
  if e.error == some "no_agent_session" then .noSession
  else if decide (jsOr e.error "" ∈ retryableCodes) then .noGrant
  else if (e.error == some "no_oauth_token") && truthyS e.connectUrl then .accountNotLinked
  else if truthyS e.reauthorizeUrl then .scopeOrTokenExpired
  else if truthyS e.elevateUrl then .elevationRequired
  else .generic

/-- office-cli.js `isAutoRequestError`: false when `data` is nullish or
its `error` field is falsy, otherwise membership in the retryable
codes. -/
def isAutoRequestError (d : Option AuthData) : Bool :=
  match d with
  | none => false
  | some a =>
    if truthyS a.error then decide (a.error.getD "" ∈ retryableCodes) else false

end OfficeCli

/-! ## The classifier rule table of §4.2, as an ordered first-match list -/

/-- First-match evaluation of an ordered rule table; when no rule
matches, the classification is `generic`. -/
def firstMatchKind : List ((AuthFields → Bool) × AuthKind) → AuthFields → AuthKind
  | [], _ => .generic
  | (c, k) :: rs, e => if c e then k else firstMatchKind rs e

/-- The five non-default rows of the §4.2 classifier table, in spec
order (NoSession, NoGrant, AccountNotLinked, ScopeOrTokenExpired,
ElevationRequired); a field is "present" when it is truthy, as in the
code. -/
def classifierRules : List ((AuthFields → Bool) × AuthKind) :=
  [ (fun e => e.error == some "no_agent_session", .noSession)
  , (fun e => decide (jsOr e.error "" ∈ retryableCodes), .noGrant)
  , (fun e => (e.error == some "no_oauth_token") && truthyS e.connectUrl, .accountNotLinked)
  , (fun e => truthyS e.reauthorizeUrl, .scopeOrTokenExpired)
  , (fun e => truthyS e.elevateUrl, .elevationRequired) ]

/-! ## Grant request / poll protocol (§4.3, `waitForGrantApproval`) -/

/-- One response of the broker's poll endpoint, as observed by the
client: an OK (2xx) response with its parsed JSON `status` and
`message` fields (`none` models an absent field), or a non-OK response
with HTTP status, parsed error body (when the body parsed as JSON) and
raw body text. -/
inductive PollReply where
  | ok (status : Option String) (message : Option String)
  | httpErr (status : Nat) (data : Option AuthData) (text : String) (statusText : String)

/-- Observable I/O events of the poll loop: a GET of the poll URL, or a
sleep of the fixed 2000 ms interval. -/
inductive PollEvent where
  | get
  | sleep
deriving DecidableEq

/-- Terminal outcome of `waitForGrantApproval`. -/
inductive GrantOutcome where
  | approved
  | thrown (msg : String)
  | exitedAuth (kind : AuthKind)
  | exitedMsg (msg : String)
deriving DecidableEq

/-- Result of a `waitForGrantApproval` run: the outcome, the ordered
trace of GETs and sleeps performed, and the informational messages
printed inside the loop. -/
structure LoopResult where
  outcome : GrantOutcome
  events : List PollEvent
  msgs : List String
deriving DecidableEq

/-- Number of poll GETs in a loop trace. -/
def LoopResult.gets (r : LoopResult) : Nat := r.events.count .get

/-- Number of fixed-interval sleeps in a loop trace. -/
def LoopResult.sleeps (r : LoopResult) : Nat := r.events.count .sleep

/-- Wall-clock time consumed by `j` complete loop iterations starting at
poll index `k`: each iteration takes its fetch duration plus the fixed
2000 ms sleep. -/
def elapsed (fdur : Nat → Nat) (k : Nat) : Nat → Nat
  | 0 => 0
  | j + 1 => (fdur k + 2000) + elapsed fdur (k + 1) j

/-- The poll loop of `waitForGrantApproval` (identical in both scripts
up to the classifier used on a non-OK poll body, passed as `classify`).
`reply k` is the broker's k-th poll response, `fdur k` the wall-clock
time the k-th fetch takes, `deadline` the precomputed deadline, `now`
the wall clock at the top of the current iteration, `last` the
`lastStatus` variable.  Each iteration: test `now < deadline`, GET the
poll URL, print the OAuth hint on a first `oauth_pending` observation,
return on `approved`, throw on `denied`/`expired`, otherwise sleep
2000 ms and continue.  A non-OK response with a parsed body classifies
it and exits; without one it throws.  Leaving the loop throws the
timeout error. -/
def pollLoop (classify : AuthData → AuthKind) (reply : Nat → PollReply)
    (fdur : Nat → Nat) (deadline : Nat) (k now : Nat) (last : Option String) :
    LoopResult :=
  if _h : now < deadline then
    match reply k with
    | .httpErr st data text statusText =>
      match data with
      | some d => { outcome := .exitedAuth (classify d), events := [.get], msgs := [] }
      | none =>
        { outcome := .thrown ("Auth request poll failed (" ++ toString st ++ "): " ++
            (if text != "" then text else statusText))
          events := [.get], msgs := [] }
    | .ok status msg =>
      let emitted : List String :=
        if status != last && status == some "oauth_pending" then
          ["OAuth connection required. Complete it in your browser..."]
        else []
      if status == some "approved" then
        { outcome := .approved, events := [.get], msgs := emitted }
      else if status == some "denied" then
        { outcome := .thrown (jsOr msg "Authorization denied."), events := [.get], msgs := emitted }
      else if status == some "expired" then
        { outcome := .thrown (jsOr msg "Authorization request expired."), events := [.get], msgs := emitted }
      else
        let sub := pollLoop classify reply fdur deadline (k + 1) (now + fdur k + 2000) status
        { outcome := sub.outcome, events := .get :: .sleep :: sub.events, msgs := emitted ++ sub.msgs }
  else
    { outcome := .thrown "Timed out waiting for authorization approval."
      events := [], msgs := [] }
termination_by deadline - now
decreasing_by omega

/-- The poll deadline: the request's `expiresAt` when present, otherwise
now plus five minutes. -/
def grantDeadline (expiresAt : Option Nat) (now : Nat) : Nat :=
  match expiresAt with
  | some t => t
  | none => now + 5 * 60 * 1000

namespace NotionQuery

/-- notion-query.js `waitForGrantApproval`: fails fatally when no agent
session is loaded, otherwise computes the deadline and runs the poll
loop (classifying non-OK poll bodies with this script's
`describeAuthError`). -/
def waitForGrantApproval (session : Option String) (reply : Nat → PollReply)
    (fdur : Nat → Nat) (expiresAt : Option Nat) (now : Nat) : LoopResult :=
  match session with
  | none =>
    { outcome := .exitedMsg "No agent session. Run \x27node notion-query.js login\x27 first."
      events := [], msgs := [] }
  | some _ => pollLoop (fun d => describeAuthError (some d)) reply fdur
      (grantDeadline expiresAt now) 0 now none

end NotionQuery

namespace OfficeCli

/-- office-cli.js `waitForGrantApproval`: identical to the Notion
variant except for the no-session message and the classifier used on a
non-OK poll body. -/
def waitForGrantApproval (session : Option String) (reply : Nat → PollReply)
    (fdur : Nat → Nat) (expiresAt : Option Nat) (now : Nat) : LoopResult :=
  match session with
  | none =>
    { outcome := .exitedMsg "Not registered. Run \x27./office-cli.js login\x27 first."
      events := [], msgs := [] }
  | some _ => pollLoop (fun d => describeAuthError d.toAuthFields) reply fdur
      (grantDeadline expiresAt now) 0 now none

end OfficeCli

/-- The event trace of a run that observes `n` non-terminal polls and
then an approval: `n` times (GET then sleep), then one final GET. -/
def pendApprovedTrace : Nat → List PollEvent
  | 0 => [.get]
  | n + 1 => .get :: .sleep :: pendApprovedTrace n

/-! ## Resilient request pipeline (§4.4, `notionApi` / `apiRequest`) -/

/-- The default broker base URL (the env override only changes the
string, never the control flow). -/
def AUTH_SERVICE_URL : String := "https://auth.freshhub.ai"

/-- notion-query.js proxy base. -/
def NOTION_PROXY_BASE : String := AUTH_SERVICE_URL ++ "/api/proxy/notion"

/-- office-cli.js proxy base. -/
def API_BASE : String := AUTH_SERVICE_URL ++ "/proxy/msgraph"

/-- Default Notion API version header value. -/
def NOTION_VERSION : String := "2022-06-28"

/-- JS `Response.ok`: status in the 2xx range. -/
def respOk (s : Nat) : Bool := 200 ≤ s && s < 300

/-- A downstream (proxy) HTTP response as the pipeline observes it:
status, the error body parsed as JSON when possible (`readErrorBody`),
the raw body text, and the HTTP status text. -/
structure ProxyResponse where
  status : Nat
  data : Option AuthData := none
  text : String := ""
  statusText : String := ""

/-- A record of one HTTP request issued by the embedded code: URL,
method, the headers actually sent, and whether a body was sent. -/
structure RequestRec where
  url : String
  method : String
  headers : List (String × String)
  hasBody : Bool
deriving DecidableEq

/-- Lookup of a header value by name (first match). -/
def headerLookup (hs : List (String × String)) (k : String) : Option String :=
  hs.lookup k

/-- JS object-spread merge of two header maps: a key present in `extra`
overrides the same key of `base` (lookup-equivalent model; the JS
spread keeps the original key position, which no code path observes). -/
def mergeHeaders (base extra : List (String × String)) : List (String × String) :=
  base.filter (fun p => (extra.lookup p.1).isNone) ++ extra

/-- Outcome of one `ensureGrant()` invocation (the grant request / poll
flow of §4.3): success, a thrown error, or a process exit from inside
the flow.  Its own HTTP traffic targets the auth-request and poll
endpoints, not the proxy endpoint of the wrapped call, so it is
abstracted to its outcome here. -/
inductive GrantFlowResult where
  | ok
  | thrown (msg : String)
  | exitedAuth (kind : AuthKind)
  | exitedMsg (msg : String)
deriving DecidableEq

/-- Terminal outcome of a pipeline call. -/
inductive PipeOutcome where
  | success (data : Option AuthData)
  | jsonError
  | thrown (msg : String)
  | exitedAuth (kind : AuthKind)
  | exitedMsg (msg : String)
deriving DecidableEq

/-- Result of a pipeline call: its outcome plus the ordered list of HTTP
requests this call issued against the proxy endpoint (including those
of the recursive retry). -/
structure PipeResult where
  outcome : PipeOutcome
  requests : List RequestRec
deriving DecidableEq

namespace NotionQuery

/-- The headers notion-query.js `notionApi` sends: always the session
and Notion-Version headers, plus a JSON content type exactly when a
body is present. -/
def notionHeaders (sess : String) (hasBody : Bool) : List (String × String) :=
  [("X-Agent-Session", sess), ("Notion-Version", NOTION_VERSION)] ++
    (if hasBody then [("Content-Type", "application/json")] else [])

/-- notion-query.js `notionApi(method, endpoint, body, attempt)`.
`auto` is `AUTO_REQUEST_ENABLED`, `session` the result of
`getAgentSession()`, `resp k` the proxy's answer to the k-th attempt,
and `grant` the outcome of `ensureGrant()` when it is invoked.  On
401/403/429 with a first attempt, auto-request enabled and a retryable
error body, it runs the grant flow and recurses once with
`attempt + 1`; otherwise a parsed error body is classified and the
process exits, an unparseable one throws.  A non-2xx status outside
{401,403,429} classifies-and-exits on session/oauth/reauthorize/elevate
errors, else throws the body's message; a 2xx response with
`object == "error"` throws, otherwise its parsed body (or `{}`) is
returned. -/
def notionApi (auto : Bool) (session : Option String) (resp : Nat → ProxyResponse)
    (grant : GrantFlowResult) (method endpoint : String) (body : Option String)
    (attempt : Nat) : PipeResult :=
  match session with
  | none =>
    { outcome := .exitedMsg "No agent session. Run \x27node notion-query.js login\x27 first."
      requests := [] }
  | some sess =>
    let req : RequestRec :=
      { url := NOTION_PROXY_BASE ++ endpoint, method := method
        headers := notionHeaders sess body.isSome, hasBody := body.isSome }
    let r := resp attempt
    if r.status = 401 ∨ r.status = 403 ∨ r.status = 429 then
      if _h : attempt = 0 ∧ auto = true ∧ isAutoRequestError r.data = true then
        match grant with
        | .ok =>
          let sub := notionApi auto session resp grant method endpoint body (attempt + 1)
          { outcome := sub.outcome, requests := req :: sub.requests }
        | .thrown m => { outcome := .thrown m, requests := [req] }
        | .exitedAuth k => { outcome := .exitedAuth k, requests := [req] }
        | .exitedMsg m => { outcome := .exitedMsg m, requests := [req] }
      else
        match r.data with
        | some d => { outcome := .exitedAuth (describeAuthError (some d)), requests := [req] }
        | none =>
          { outcome := .thrown (if r.text != "" then r.text
              else "Authentication failed (" ++ toString r.status ++ ")")
            requests := [req] }
    else if ¬ respOk r.status then
      match r.data with
      | some a =>
        let e := normalizeAuthError (some a)
        if e.error == some "no_agent_session" || e.error == some "no_oauth_token" ||
            truthyS e.reauthorizeUrl || truthyS e.elevateUrl then
          { outcome := .exitedAuth (describeAuthError (some a)), requests := [req] }
        else if truthyS a.error || truthyS a.message then
          { outcome := .thrown (jsOr2 a.message a.error), requests := [req] }
        else
          { outcome := .thrown (if r.text != "" then r.text
              else "Error: " ++ toString r.status ++ " " ++ r.statusText)
            requests := [req] }
      | none =>
        { outcome := .thrown (if r.text != "" then r.text
            else "Error: " ++ toString r.status ++ " " ++ r.statusText)
          requests := [req] }
    else
      match r.data with
      | some a =>
        if a.object == some "error" then
          { outcome := .thrown ("Error: " ++ jsOr a.message "Notion proxy error")
            requests := [req] }
        else { outcome := .success (some a), requests := [req] }
      | none => { outcome := .success (some {}), requests := [req] }
termination_by 1 - attempt
decreasing_by omega

end NotionQuery

namespace OfficeCli

/-- The second argument of office-cli.js `apiRequest` (the fetch
options object): the fields the script passes. -/
structure OfficeOptions where
  method : Option String := none
  body : Option String := none
  headers : List (String × String) := []

/-- The headers office-cli.js `apiRequest` sends: the session header
and an unconditional JSON content type, overridable through
`options.headers` (JS spread). -/
def officeHeaders (sess : String) (extra : List (String × String)) :
    List (String × String) :=
  mergeHeaders [("X-Agent-Session", sess), ("Content-Type", "application/json")] extra

/-- office-cli.js `apiRequest(endpoint, options, attempt)`: same retry
structure as `notionApi`; on 401/403/429 with a first attempt,
auto-request enabled and a retryable error it runs the grant flow and
recurses once with `attempt + 1`; a parsed error body otherwise
classifies-and-exits; a non-2xx status throws the body's message or a
generic error; a 2xx response resolves `response.json()`. -/
def apiRequest (auto : Bool) (session : Option String) (resp : Nat → ProxyResponse)
    (grant : GrantFlowResult) (endpoint : String) (options : OfficeOptions)
    (attempt : Nat) : PipeResult :=
  match session with
  | none =>
    { outcome := .exitedMsg "Not registered. Run \x27login\x27 to create an agent session."
      requests := [] }
  | some sess =>
    let req : RequestRec :=
      { url := API_BASE ++ endpoint, method := jsOr options.method "GET"
        headers := officeHeaders sess options.headers, hasBody := options.body.isSome }
    let r := resp attempt
    if r.status = 401 ∨ r.status = 403 ∨ r.status = 429 then
      if _h : attempt = 0 ∧ auto = true ∧ isAutoRequestError r.data = true then
        match grant with
        | .ok =>
          let sub := apiRequest auto session resp grant endpoint options (attempt + 1)
          { outcome := sub.outcome, requests := req :: sub.requests }
        | .thrown m => { outcome := .thrown m, requests := [req] }
        | .exitedAuth k => { outcome := .exitedAuth k, requests := [req] }
        | .exitedMsg m => { outcome := .exitedMsg m, requests := [req] }
      else
        match r.data with
        | some d => { outcome := .exitedAuth (describeAuthError d.toAuthFields), requests := [req] }
        | none =>
          { outcome := .thrown (if r.text != "" then r.text
              else "Authentication failed (" ++ toString r.status ++ ")")
            requests := [req] }
    else if ¬ respOk r.status then
      match r.data with
      | some a =>
        if truthyS a.error || truthyS a.message then
          { outcome := .thrown (jsOr2 a.message a.error), requests := [req] }
        else
          { outcome := .thrown (if r.text != "" then r.text
              else "API error (" ++ toString r.status ++ ")")
            requests := [req] }
      | none =>
        { outcome := .thrown (if r.text != "" then r.text
            else "API error (" ++ toString r.status ++ ")")
          requests := [req] }
    else
      match r.data with
      | some a => { outcome := .success (some a), requests := [req] }
      | none => .mk .jsonError [req]
termination_by 1 - attempt
decreasing_by omega

/-! ### Redirect following on content endpoints (`driveDownload`, `driveContent`) -/

/-- A content-endpoint HTTP response: status and the `location` header. -/
structure GResponse where
  status : Nat
  location : Option String := none
deriving DecidableEq

/-- Outcome of the content-fetch segment. -/
inductive ContentOutcome where
  | final (r : GResponse)
  | thrown (msg : String)
deriving DecidableEq

/-- The request `fetchGraphContent` issues: the content endpoint with
exactly the session header. -/
def fetchGraphContentReq (sess : String) (endpoint : String) : RequestRec :=
  { url := API_BASE ++ endpoint, method := "GET"
    headers := [("X-Agent-Session", sess)], hasBody := false }

/-- The content-fetch segment of office-cli.js `driveDownload` (after
the item-info lookup): GET the item content via `fetchGraphContent`
(whose response is `first` here); on a 301/302, follow the `location`
header — when present — with one plain `fetch(downloadUrl)` carrying no
headers at all, else throw; finally a non-OK response throws. -/
def driveDownloadFetch (sess : String) (itemId : String) (first : GResponse)
    (follow : String → GResponse) : ContentOutcome × List RequestRec :=
  let req0 := fetchGraphContentReq sess ("/me/drive/items/" ++ itemId ++ "/content")
  if first.status = 302 ∨ first.status = 301 then
    match first.location with
    | none => (.thrown "Download redirect missing location", [req0])
    | some loc =>
      let r2 := follow loc
      let req1 : RequestRec := { url := loc, method := "GET", headers := [], hasBody := false }
      ((if respOk r2.status then .final r2
        else .thrown ("Download failed (" ++ toString r2.status ++ ")")), [req0, req1])
  else
    ((if respOk first.status then .final first
      else .thrown ("Download failed (" ++ toString first.status ++ ")")), [req0])

/-- The content-fetch segment of office-cli.js `driveContent` (after
the item-info lookup and the text-file check): identical redirect
handling to `driveDownloadFetch` up to its error message. -/
def driveContentFetch (sess : String) (itemId : String) (first : GResponse)
    (follow : String → GResponse) : ContentOutcome × List RequestRec :=
  let req0 := fetchGraphContentReq sess ("/me/drive/items/" ++ itemId ++ "/content")
  if first.status = 302 ∨ first.status = 301 then
    match first.location with
    | none => (.thrown "Download redirect missing location", [req0])
    | some loc =>
      let r2 := follow loc
      let req1 : RequestRec := { url := loc, method := "GET", headers := [], hasBody := false }
      ((if respOk r2.status then .final r2
        else .thrown ("Content download failed (" ++ toString r2.status ++ ")")), [req0, req1])
  else
    ((if respOk first.status then .final first
      else .thrown ("Content download failed (" ++ toString first.status ++ ")")), [req0])

end OfficeCli


/-! ## Session store (§4.1, `getAgentSession` / `saveAgentSession`)

Both scripts implement the identical load/save logic over their own
candidate path lists, so the store is embedded once, parameterised by
the candidate paths.  The filesystem is a map from path to file
contents (`none` = file absent); `JSON.parse` is embedded as a real
JSON parser over the file text (`parseJson`, `none` = parse throws). -/

/-- A parsed JSON value.  Numbers keep their literal token: the store
only ever consumes a number through JS truthiness, i.e. whether its
mantissa is zero (floating-point underflow of extreme exponents is not
modelled). -/
inductive Json where
  | null
  | bool (b : Bool)
  | num (tok : String)
  | str (s : String)
  | arr (elems : List Json)
  | obj (fields : List (String × Json))

/-- JSON insignificant whitespace (RFC 8259). -/
def isJsonWs (c : Char) : Bool :=
  [' ', '\t', '\n', '\r'].contains c

/-- Skip insignificant whitespace. -/
def skipJsonWs (l : List Char) : List Char :=
  l.dropWhile isJsonWs

/-- Value of a hex digit (code points 0-9, a-f, A-F). -/
def hexDigitVal (c : Char) : Option Nat :=
  let n := c.toNat
  if 48 ≤ n ∧ n ≤ 57 then some (n - 48)
  else if 97 ≤ n ∧ n ≤ 102 then some (n - 87)
  else if 65 ≤ n ∧ n ≤ 70 then some (n - 55)
  else none

/-- Single-character JSON string escapes. -/
def escChar (e : Char) : Option Char :=
  if e = '"' then some '"'
  else if e = '\\' then some '\\'
  else if e = '/' then some '/'
  else if e = 'b' then some '\x08'
  else if e = 'f' then some '\x0c'
  else if e = 'n' then some '\n'
  else if e = 'r' then some '\r'
  else if e = 't' then some '\t'
  else none

/-- Scan a JSON string body (after the opening quote) up to the closing
quote, decoding escapes; unescaped control characters are rejected.
Returns the decoded characters and the remaining input. -/
def strBody : List Char → Option (List Char × List Char)
  | [] => none
  | c :: rest =>
    if c = '"' then some ([], rest)
    else if c = '\\' then
      match rest with
      | [] => none
      | e :: rest2 =>
        if e = 'u' then
          match rest2 with
          | a :: b :: c2 :: d :: rest3 =>
            match hexDigitVal a, hexDigitVal b, hexDigitVal c2, hexDigitVal d with
            | some ha, some hb, some hc, some hd =>
              match strBody rest3 with
              | some (cs, rem) =>
                some (Char.ofNat (4096 * ha + 256 * hb + 16 * hc + hd) :: cs, rem)
              | none => none
            | _, _, _, _ => none
          | _ => none
        else
          match escChar e with
          | some ec =>
            match strBody rest2 with
            | some (cs, rem) => some (ec :: cs, rem)
            | none => none
          | none => none
    else if c.toNat < 32 then none
    else
      match strBody rest with
      | some (cs, rem) => some (c :: cs, rem)
      | none => none

/-- Parse a JSON number token (RFC 8259 grammar: optional minus,
integer part without leading zeros, optional fraction, optional
exponent), returning the token characters and the remaining input. -/
def parseNumber (l : List Char) : Option (List Char × List Char) :=
  let (neg, l1) :=
    match l with
    | '-' :: r => (['-'], r)
    | _ => (([] : List Char), l)
  let ds := l1.takeWhile Char.isDigit
  let r2 := l1.dropWhile Char.isDigit
  if ds = [] then none
  else if ds.length > 1 && ds.head? = some '0' then none
  else
    let (fracPart, r4) :=
      match r2 with
      | '.' :: r3 =>
        let fs := r3.takeWhile Char.isDigit
        (if fs = [] then none else some ('.' :: fs), r3.dropWhile Char.isDigit)
      | _ => (some [], r2)
    match fracPart with
    | none => none
    | some frac =>
      match r4 with
      | e :: r5 =>
        if e = 'e' || e = 'E' then
          let (sign, r6) :=
            match r5 with
            | '+' :: r7 => (['+'], r7)
            | '-' :: r7 => (['-'], r7)
            | _ => (([] : List Char), r5)
          let es := r6.takeWhile Char.isDigit
          if es = [] then none
          else some (neg ++ ds ++ frac ++ e :: sign ++ es, r6.dropWhile Char.isDigit)
        else some (neg ++ ds ++ frac, r4)
      | [] => some (neg ++ ds ++ frac, r4)

mutual

/-- Parse one JSON value at the head of the input (no leading
whitespace), fuelled; returns the value and the remaining input. -/
def parseValue : Nat → List Char → Option (Json × List Char)
  | 0, _ => none
  | fu + 1, l =>
    match l with
    | [] => none
    | c :: rest =>
      if c = 'n' then
        match l with
        | 'n' :: 'u' :: 'l' :: 'l' :: r => some (.null, r)
        | _ => none
      else if c = 't' then
        match l with
        | 't' :: 'r' :: 'u' :: 'e' :: r => some (.bool true, r)
        | _ => none
      else if c = 'f' then
        match l with
        | 'f' :: 'a' :: 'l' :: 's' :: 'e' :: r => some (.bool false, r)
        | _ => none
      else if c = '"' then
        match strBody rest with
        | some (cs, rem) => some (.str ⟨cs⟩, rem)
        | none => none
      else if c = '[' then
        match skipJsonWs rest with
        | ']' :: r2 => some (.arr [], r2)
        | r1 =>
          match parseElems fu r1 with
          | some (es, rem) => some (.arr es, rem)
          | none => none
      else if c = '{' then
        match skipJsonWs rest with
        | '}' :: r2 => some (.obj [], r2)
        | r1 =>
          match parseMembers fu r1 with
          | some (fs, rem) => some (.obj fs, rem)
          | none => none
      else
        match parseNumber l with
        | some (tok, rem) => some (.num ⟨tok⟩, rem)
        | none => none

/-- Parse the comma-separated elements of an array (input starts at the
first element, whitespace already skipped) up to the closing bracket. -/
def parseElems : Nat → List Char → Option (List Json × List Char)
  | 0, _ => none
  | fu + 1, l =>
    match parseValue fu l with
    | none => none
    | some (v, rem) =>
      match skipJsonWs rem with
      | ',' :: r2 =>
        match parseElems fu (skipJsonWs r2) with
        | some (es, rem2) => some (v :: es, rem2)
        | none => none
      | ']' :: r2 => some ([v], r2)
      | _ => none

/-- Parse the comma-separated members of an object (input starts at the
first key, whitespace already skipped) up to the closing brace. -/
def parseMembers : Nat → List Char → Option (List (String × Json) × List Char)
  | 0, _ => none
  | fu + 1, l =>
    match l with
    | '"' :: rest =>
      match strBody rest with
      | none => none
      | some (kcs, rem) =>
        match skipJsonWs rem with
        | ':' :: r2 =>
          match parseValue fu (skipJsonWs r2) with
          | none => none
          | some (v, rem2) =>
            match skipJsonWs rem2 with
            | ',' :: r4 =>
              match parseMembers fu (skipJsonWs r4) with
              | some (fs, rem3) => some ((⟨kcs⟩, v) :: fs, rem3)
              | none => none
            | '}' :: r4 => some ([(⟨kcs⟩, v)], r4)
            | _ => none
        | _ => none
    | _ => none

end

/-- JS `JSON.parse`: parse one value surrounded by whitespace; `none`
models a thrown SyntaxError.  The fuel `2 * length + 2` dominates the
recursion depth, since at least one input character is consumed between
every second fuel decrement. -/
def parseJson (s : String) : Option Json :=
  match parseValue (2 * s.data.length + 2) (skipJsonWs s.data) with
  | some (v, rem) => if skipJsonWs rem = [] then some v else none
  | none => none

/-- Whether a JSON number literal denotes zero: every mantissa digit is
zero (the exponent cannot make a nonzero mantissa zero). -/
def numTokenZero (tok : String) : Bool :=
  (tok.data.takeWhile (fun c => !(c == 'e') && !(c == 'E'))).all
    (fun c => !c.isDigit || c == '0')

/-- JS truthiness of a parsed JSON value. -/
def jsTruthyJ : Json → Bool
  | .null => false
  | .bool b => b
  | .num t => !(numTokenZero t)
  | .str s => s != ""
  | .arr _ => true
  | .obj _ => true

/-- JS truthiness of a JSON-value-or-undefined. -/
def truthyOJ (o : Option Json) : Bool :=
  match o with
  | some j => jsTruthyJ j
  | none => false

/-- JS `a || b` on JSON-values-or-undefined. -/
def jsOrJ (a b : Option Json) : Option Json :=
  if truthyOJ a then a else b

/-- JS property access `parsed.k` for an object (duplicate keys: the
last occurrence wins, as in `JSON.parse`); `none` = `undefined`.  The
caller handles the `null` receiver (whose property access throws). -/
def jsonField (j : Json) (k : String) : Option Json :=
  match j with
  | .obj fs => fs.reverse.lookup k
  | _ => none

/-- The session-store load operation (`getAgentSession`, identical in
both scripts): scan the candidate files in order; skip absent or
blank files; `JSON.parse` the trimmed text — on a parse throw the raw
trimmed text is the session id; a parsed `null` makes the subsequent
property access throw, which the catch also turns into the raw text;
other parsed values are probed for `agentSessionId` / `agentSession` /
`session` (first truthy wins): a string with nonblank trim is returned
trimmed, a nullish or blank result falls through to the next candidate,
and any other truthy-or-throwing value (number, boolean, array,
object) makes `.trim()` throw, returning the raw text. -/
def getAgentSession (candidates : List String) (fs : String → Option String) :
    Option String :=
  match candidates with
  | [] => none
  | sessionFile :: rest =>
    match fs sessionFile with
    | none => getAgentSession rest fs
    | some content =>
      let sessionRaw := jsTrim content
      if sessionRaw = "" then getAgentSession rest fs
      else
        match parseJson sessionRaw with
        | none => some sessionRaw
        | some .null => some sessionRaw
        | some parsed =>
          match jsOrJ (jsonField parsed "agentSessionId")
              (jsOrJ (jsonField parsed "agentSession") (jsonField parsed "session")) with
          | none => getAgentSession rest fs
          | some .null => getAgentSession rest fs
          | some (.str s) =>
            if jsTrim s = "" then getAgentSession rest fs else some (jsTrim s)
          | some _ => some sessionRaw

/-- The session-store save operation (`saveAgentSession`, identical in
both scripts): write the trimmed id plus a newline to the primary
(shared) session file, mode 0600 (permission bits are not modelled). -/
def saveAgentSession (sharedFile : String) (fs : String → Option String)
    (agentSessionId : String) : String → Option String :=
  fun p => if p = sharedFile then some (jsTrim agentSessionId ++ "\n") else fs p

/-! ## Theorems -/

/-- C2: each script's `isAutoRequestError` returns true exactly when the
error field of the payload (for notion-query.js: of the normalized
payload, i.e. after the `details` merge that all its payload
inspections apply) is one of `no_grant`, `grant_expired`,
`single_use_exhausted`; in particular it is false whenever that field
is absent, and for every other error code. -/
theorem isAutoRequestError_iff_retryable :
    (∀ d : AuthData,
      OfficeCli.isAutoRequestError (some d) = true ↔
        d.error ∈ retryableCodes.map some) ∧
    (∀ d : Option AuthData,
      NotionQuery.isAutoRequestError d = true ↔
        (NotionQuery.normalizeAuthError d).error ∈ retryableCodes.map some) ∧
    OfficeCli.isAutoRequestError none = false := by
  refine ⟨?_, ?_, rfl⟩
  · intro d
    rcases hd : d.error with _ | s
    · simp [OfficeCli.isAutoRequestError, hd, truthyS, retryableCodes]
    · by_cases hs : s = ""
      · subst hs
        simp [OfficeCli.isAutoRequestError, hd, truthyS, retryableCodes]
      · simp [OfficeCli.isAutoRequestError, hd, truthyS, hs, retryableCodes]
  · intro d
    rcases hd : (NotionQuery.normalizeAuthError d).error with _ | s
    · simp [NotionQuery.isAutoRequestError, hd, truthyS, retryableCodes]
    · by_cases hs : s = ""
      · subst hs
        simp [NotionQuery.isAutoRequestError, hd, truthyS, retryableCodes]
      · simp [NotionQuery.isAutoRequestError, hd, truthyS, hs, retryableCodes]

/-- C3: both classifiers evaluate the §4.2 rule table top-to-bottom and
return the kind of the first matching row (defaulting to Generic), so
the first matching condition wins even when a later row's fields are
also present; in particular a payload with both `error = "no_grant"`
and an `elevateUrl` is classified NoGrant, not ElevationRequired. -/
theorem describeAuthError_first_match :
    (∀ e : AuthFields, OfficeCli.describeAuthError e = firstMatchKind classifierRules e) ∧
    (∀ d : Option AuthData,
      NotionQuery.describeAuthError d =
        firstMatchKind classifierRules (NotionQuery.normalizeAuthError d)) ∧
    OfficeCli.describeAuthError
      { error := some "no_grant", elevateUrl := some "https://example.test/elevate" }
      = .noGrant ∧
    NotionQuery.describeAuthError
      (some { error := some "no_grant", elevateUrl := some "https://example.test/elevate" })
      = .noGrant ∧
    AuthKind.noGrant ≠ AuthKind.elevationRequired := by
  refine ⟨fun e => rfl, fun d => rfl, by decide, by decide, by decide⟩

theorem pendApprovedTrace_count_get (n : Nat) :
    (pendApprovedTrace n).count PollEvent.get = n + 1 := by
  induction n with
  | zero => simp [pendApprovedTrace]
  | succ n ih => simp [pendApprovedTrace, List.count_cons, ih]

theorem pendApprovedTrace_count_sleep (n : Nat) :
    (pendApprovedTrace n).count PollEvent.sleep = n := by
  induction n with
  | zero => simp [pendApprovedTrace]
  | succ n ih => simp [pendApprovedTrace, List.count_cons, ih]

theorem pendApprovedTrace_eq_flatten (n : Nat) :
    pendApprovedTrace n =
      (List.replicate n [PollEvent.get, PollEvent.sleep]).flatten ++ [PollEvent.get] := by
  induction n with
  | zero => simp [pendApprovedTrace]
  | succ n ih => simp [pendApprovedTrace, List.replicate_succ, ih]

theorem pollLoop_pending_approved (classify : AuthData → AuthKind)
    (reply : Nat → PollReply) (fdur : Nat → Nat) (deadline : Nat) :
    ∀ (n k now : Nat) (last : Option String),
      (∀ j, j < n → ∃ m, reply (k + j) = PollReply.ok (some "pending") m) →
      (∃ m, reply (k + n) = PollReply.ok (some "approved") m) →
      (∀ j, j ≤ n → now + elapsed fdur k j < deadline) →
      pollLoop classify reply fdur deadline k now last =
        { outcome := .approved, events := pendApprovedTrace n, msgs := [] } := by
  intro n
  induction n with
  | zero =>
    intro k now last _hpend happ htime
    obtain ⟨m, hm⟩ := happ
    rw [Nat.add_zero] at hm
    have hlt : now < deadline := by simpa [elapsed] using htime 0 (Nat.le_refl 0)
    rw [pollLoop, dif_pos hlt, hm]
    simp [pendApprovedTrace]
  | succ n ih =>
    intro k now last hpend happ htime
    obtain ⟨m, hm⟩ := hpend 0 (Nat.succ_pos n)
    rw [Nat.add_zero] at hm
    have hlt : now < deadline := by simpa [elapsed] using htime 0 (Nat.zero_le _)
    have hpend2 : ∀ j, j < n → ∃ m2, reply (k + 1 + j) = PollReply.ok (some "pending") m2 := by
      intro j hj
      have h2 := hpend (j + 1) (by omega)
      have he : k + (j + 1) = k + 1 + j := by omega
      rwa [he] at h2
    have happ2 : ∃ m2, reply (k + 1 + n) = PollReply.ok (some "approved") m2 := by
      have he : k + (n + 1) = k + 1 + n := by omega
      rwa [he] at happ
    have htime2 : ∀ j, j ≤ n → (now + fdur k + 2000) + elapsed fdur (k + 1) j < deadline := by
      intro j hj
      have h2 := htime (j + 1) (by omega)
      simp [elapsed] at h2
      omega
    have hsub := ih (k + 1) (now + fdur k + 2000) (some "pending") hpend2 happ2 htime2
    rw [pollLoop, dif_pos hlt, hm]
    simp [hsub, pendApprovedTrace]

theorem pollLoop_timeout (classify : AuthData → AuthKind)
    (reply : Nat → PollReply) (fdur : Nat → Nat) (deadline : Nat) :
    ∀ (m k now : Nat) (last : Option String), deadline - now = m →
      (∀ j, now + elapsed fdur k j < deadline →
        ∃ st ms, reply (k + j) = PollReply.ok st ms ∧ st ≠ some "approved" ∧
          st ≠ some "denied" ∧ st ≠ some "expired") →
      (pollLoop classify reply fdur deadline k now last).outcome =
        .thrown "Timed out waiting for authorization approval." := by
  intro m
  induction m using Nat.strong_induction_on with
  | _ m ih =>
    intro k now last hm hrep
    by_cases hlt : now < deadline
    · obtain ⟨st, ms, hreply, hna, hnd, hne⟩ := hrep 0 (by simpa [elapsed])
      rw [Nat.add_zero] at hreply
      have hba : (st == some "approved") = false := by simpa using hna
      have hbd : (st == some "denied") = false := by simpa using hnd
      have hbe : (st == some "expired") = false := by simpa using hne
      have hrep2 : ∀ j, (now + fdur k + 2000) + elapsed fdur (k + 1) j < deadline →
          ∃ st2 ms2, reply (k + 1 + j) = PollReply.ok st2 ms2 ∧ st2 ≠ some "approved" ∧
            st2 ≠ some "denied" ∧ st2 ≠ some "expired" := by
        intro j hj
        have he : k + (j + 1) = k + 1 + j := by omega
        have h2 := hrep (j + 1) (by simp [elapsed]; omega)
        rwa [he] at h2
      have hsub := ih (deadline - (now + fdur k + 2000)) (by omega)
        (k + 1) (now + fdur k + 2000) st rfl hrep2
      rw [pollLoop, dif_pos hlt, hreply]
      simp [hba, hbd, hbe, hsub]
    · rw [pollLoop, dif_neg hlt]

/-- C4: with the poll endpoint answering `pending` on the first n polls
and `approved` on the next, all observed before the deadline,
`waitForGrantApproval` (in both scripts) returns successfully after
exactly n+1 GETs of the poll URL and exactly n sleeps of the fixed
2000 ms interval. -/
theorem grant_poll_pending_then_approved (sess : String) (reply : Nat → PollReply)
    (fdur : Nat → Nat) (expiresAt : Option Nat) (now n : Nat)
    (hpend : ∀ j, j < n → ∃ m, reply j = PollReply.ok (some "pending") m)
    (happ : ∃ m, reply n = PollReply.ok (some "approved") m)
    (htime : ∀ j, j ≤ n → now + elapsed fdur 0 j < grantDeadline expiresAt now) :
    NotionQuery.waitForGrantApproval (some sess) reply fdur expiresAt now =
      { outcome := .approved, events := pendApprovedTrace n, msgs := [] } ∧
    OfficeCli.waitForGrantApproval (some sess) reply fdur expiresAt now =
      { outcome := .approved, events := pendApprovedTrace n, msgs := [] } ∧
    (pendApprovedTrace n).count PollEvent.get = n + 1 ∧
    (pendApprovedTrace n).count PollEvent.sleep = n := by
  have hpend0 : ∀ j, j < n → ∃ m, reply (0 + j) = PollReply.ok (some "pending") m := by
    intro j hj
    simpa using hpend j hj
  have happ0 : ∃ m, reply (0 + n) = PollReply.ok (some "approved") m := by simpa using happ
  refine ⟨?_, ?_, pendApprovedTrace_count_get n, pendApprovedTrace_count_sleep n⟩
  · rw [NotionQuery.waitForGrantApproval]
    exact pollLoop_pending_approved _ reply fdur _ n 0 now none hpend0 happ0 htime
  · rw [OfficeCli.waitForGrantApproval]
    exact pollLoop_pending_approved _ reply fdur _ n 0 now none hpend0 happ0 htime

theorem grant_poll_pending_then_approved_witness :
    NotionQuery.waitForGrantApproval (some "sess")
        (fun k => if k = 0 then PollReply.ok (some "pending") none
          else PollReply.ok (some "approved") none)
        (fun _ => 0) (some 5000) 0 =
      { outcome := .approved, events := pendApprovedTrace 1, msgs := [] } ∧
    OfficeCli.waitForGrantApproval (some "sess")
        (fun k => if k = 0 then PollReply.ok (some "pending") none
          else PollReply.ok (some "approved") none)
        (fun _ => 0) (some 5000) 0 =
      { outcome := .approved, events := pendApprovedTrace 1, msgs := [] } ∧
    (pendApprovedTrace 1).count PollEvent.get = 1 + 1 ∧
    (pendApprovedTrace 1).count PollEvent.sleep = 1 := by
  refine grant_poll_pending_then_approved "sess" _ _ (some 5000) 0 1 ?_ ?_ ?_
  · intro j hj
    have hj0 : j = 0 := by omega
    subst hj0
    exact ⟨none, rfl⟩
  · exact ⟨none, rfl⟩
  · intro j hj
    match j, hj with
    | 0, _ => simp [elapsed, grantDeadline]
    | 1, _ => simp [elapsed, grantDeadline]

/-- C5 counterexample: a poll run whose very first GET is answered
`approved` performs exactly one GET and no sleep at all, so the first
poll GET after entering Pending is not preceded by any sleep — the loop
GETs first and sleeps only afterwards. -/
theorem first_poll_get_without_sleep :
    NotionQuery.waitForGrantApproval (some "sess")
        (fun _ => PollReply.ok (some "approved") none) (fun _ => 0) (some 10000) 0 =
      { outcome := .approved, events := [PollEvent.get], msgs := [] } ∧
    OfficeCli.waitForGrantApproval (some "sess")
        (fun _ => PollReply.ok (some "approved") none) (fun _ => 0) (some 10000) 0 =
      { outcome := .approved, events := [PollEvent.get], msgs := [] } ∧
    [PollEvent.get].count PollEvent.sleep = 0 := by
  have h := pollLoop_pending_approved (fun d => NotionQuery.describeAuthError (some d))
    (fun _ => PollReply.ok (some "approved") none) (fun _ => 0) 10000 0 0 0 none
    (fun j hj => absurd hj (Nat.not_lt_zero j)) ⟨none, rfl⟩
    (fun j hj => by
      have hj0 : j = 0 := Nat.le_zero.mp hj
      subst hj0
      simp [elapsed])
  have h2 := pollLoop_pending_approved (fun d => OfficeCli.describeAuthError d.toAuthFields)
    (fun _ => PollReply.ok (some "approved") none) (fun _ => 0) 10000 0 0 0 none
    (fun j hj => absurd hj (Nat.not_lt_zero j)) ⟨none, rfl⟩
    (fun j hj => by
      have hj0 : j = 0 := Nat.le_zero.mp hj
      subst hj0
      simp [elapsed])
  refine ⟨?_, ?_, by simp⟩
  · rw [NotionQuery.waitForGrantApproval]
    simpa [pendApprovedTrace, grantDeadline] using h
  · rw [OfficeCli.waitForGrantApproval]
    simpa [pendApprovedTrace, grantDeadline] using h2

/-- C5 amended: each Pending-loop iteration first GETs the poll URL and
then sleeps the fixed 2000 ms interval; the first GET is issued
immediately on entering Pending, so every sleep is preceded by a GET
(not the other way round): the event trace of a run observing n
non-terminal polls then an approval is n copies of (GET, sleep)
followed by one final GET. -/
theorem grant_poll_get_then_sleep_order (sess : String) (reply : Nat → PollReply)
    (fdur : Nat → Nat) (expiresAt : Option Nat) (now n : Nat)
    (hpend : ∀ j, j < n → ∃ m, reply j = PollReply.ok (some "pending") m)
    (happ : ∃ m, reply n = PollReply.ok (some "approved") m)
    (htime : ∀ j, j ≤ n → now + elapsed fdur 0 j < grantDeadline expiresAt now) :
    (NotionQuery.waitForGrantApproval (some sess) reply fdur expiresAt now).events =
      (List.replicate n [PollEvent.get, PollEvent.sleep]).flatten ++ [PollEvent.get] ∧
    (OfficeCli.waitForGrantApproval (some sess) reply fdur expiresAt now).events =
      (List.replicate n [PollEvent.get, PollEvent.sleep]).flatten ++ [PollEvent.get] := by
  have hpend0 : ∀ j, j < n → ∃ m, reply (0 + j) = PollReply.ok (some "pending") m := by
    intro j hj
    simpa using hpend j hj
  have happ0 : ∃ m, reply (0 + n) = PollReply.ok (some "approved") m := by simpa using happ
  constructor
  · rw [NotionQuery.waitForGrantApproval,
      pollLoop_pending_approved _ reply fdur _ n 0 now none hpend0 happ0 htime]
    exact pendApprovedTrace_eq_flatten n
  · rw [OfficeCli.waitForGrantApproval,
      pollLoop_pending_approved _ reply fdur _ n 0 now none hpend0 happ0 htime]
    exact pendApprovedTrace_eq_flatten n

theorem grant_poll_get_then_sleep_order_witness :
    (NotionQuery.waitForGrantApproval (some "sess")
        (fun k => if k = 0 then PollReply.ok (some "pending") none
          else PollReply.ok (some "approved") none)
        (fun _ => 0) (some 5000) 0).events =
      (List.replicate 1 [PollEvent.get, PollEvent.sleep]).flatten ++ [PollEvent.get] ∧
    (OfficeCli.waitForGrantApproval (some "sess")
        (fun k => if k = 0 then PollReply.ok (some "pending") none
          else PollReply.ok (some "approved") none)
        (fun _ => 0) (some 5000) 0).events =
      (List.replicate 1 [PollEvent.get, PollEvent.sleep]).flatten ++ [PollEvent.get] := by
  refine grant_poll_get_then_sleep_order "sess" _ _ (some 5000) 0 1 ?_ ?_ ?_
  · intro j hj
    have hj0 : j = 0 := by omega
    subst hj0
    exact ⟨none, rfl⟩
  · exact ⟨none, rfl⟩
  · intro j hj
    match j, hj with
    | 0, _ => simp [elapsed, grantDeadline]
    | 1, _ => simp [elapsed, grantDeadline]

/-- C6: the poll deadline is the request's `expiresAt` when present and
now + 5 minutes when it is absent; and every poll sequence whose
observed polls (those occurring before the deadline) never reach a
terminal status (`approved`/`denied`/`expired`) makes
`waitForGrantApproval` throw the error "Timed out waiting for
authorization approval." instead of polling forever. -/
theorem grant_poll_deadline_and_timeout :
    (∀ e now, grantDeadline (some e) now = e) ∧
    (∀ now, grantDeadline none now = now + 5 * 60 * 1000) ∧
    (∀ (sess : String) (reply : Nat → PollReply) (fdur : Nat → Nat)
        (expiresAt : Option Nat) (now : Nat),
      (∀ j, now + elapsed fdur 0 j < grantDeadline expiresAt now →
        ∃ st ms, reply j = PollReply.ok st ms ∧ st ≠ some "approved" ∧
          st ≠ some "denied" ∧ st ≠ some "expired") →
      (NotionQuery.waitForGrantApproval (some sess) reply fdur expiresAt now).outcome =
        .thrown "Timed out waiting for authorization approval." ∧
      (OfficeCli.waitForGrantApproval (some sess) reply fdur expiresAt now).outcome =
        .thrown "Timed out waiting for authorization approval.") := by
  refine ⟨fun e now => rfl, fun now => rfl, ?_⟩
  intro sess reply fdur expiresAt now hrep
  have hrep0 : ∀ j, now + elapsed fdur 0 j < grantDeadline expiresAt now →
      ∃ st ms, reply (0 + j) = PollReply.ok st ms ∧ st ≠ some "approved" ∧
        st ≠ some "denied" ∧ st ≠ some "expired" := by
    intro j hj
    simpa using hrep j hj
  constructor
  · rw [NotionQuery.waitForGrantApproval]
    exact pollLoop_timeout _ reply fdur _ _ 0 now none rfl hrep0
  · rw [OfficeCli.waitForGrantApproval]
    exact pollLoop_timeout _ reply fdur _ _ 0 now none rfl hrep0

theorem grant_poll_deadline_and_timeout_witness :
    (NotionQuery.waitForGrantApproval (some "sess")
        (fun _ => PollReply.ok (some "pending") none) (fun _ => 0) (some 4000) 0).outcome =
      GrantOutcome.thrown "Timed out waiting for authorization approval." ∧
    (OfficeCli.waitForGrantApproval (some "sess")
        (fun _ => PollReply.ok (some "pending") none) (fun _ => 0) (some 4000) 0).outcome =
      GrantOutcome.thrown "Timed out waiting for authorization approval." := by
  exact grant_poll_deadline_and_timeout.2.2 "sess" _ _ (some 4000) 0
    (fun j hj => ⟨some "pending", none, rfl, by decide, by decide, by decide⟩)

theorem notionApi_no_retry (auto : Bool) (sess : String) (resp : Nat → ProxyResponse)
    (grant : GrantFlowResult) (method endpoint : String) (body : Option String)
    (a : Nat) (ha : a ≠ 0) (d : AuthData)
    (hst : (resp a).status = 403) (hdata : (resp a).data = some d) :
    NotionQuery.notionApi auto (some sess) resp grant method endpoint body a =
      { outcome := .exitedAuth (NotionQuery.describeAuthError (some d)),
        requests := [{ url := NOTION_PROXY_BASE ++ endpoint, method := method,
                       headers := NotionQuery.notionHeaders sess body.isSome,
                       hasBody := body.isSome }] } := by
  rw [NotionQuery.notionApi.eq_def]
  simp [hst, hdata, ha]

theorem apiRequest_no_retry (auto : Bool) (sess : String) (resp : Nat → ProxyResponse)
    (grant : GrantFlowResult) (endpoint : String) (options : OfficeCli.OfficeOptions)
    (a : Nat) (ha : a ≠ 0) (d : AuthData)
    (hst : (resp a).status = 403) (hdata : (resp a).data = some d) :
    OfficeCli.apiRequest auto (some sess) resp grant endpoint options a =
      { outcome := .exitedAuth (OfficeCli.describeAuthError d.toAuthFields),
        requests := [{ url := API_BASE ++ endpoint, method := jsOr options.method "GET",
                       headers := OfficeCli.officeHeaders sess options.headers,
                       hasBody := options.body.isSome }] } := by
  rw [OfficeCli.apiRequest.eq_def]
  simp [hst, hdata, ha]

/-- C1: against a downstream that always answers 403 with a retryable
auth error, with automatic grant-request enabled and a successful grant
flow, the pipeline (in both scripts) issues exactly 2 HTTP attempts —
the original plus the one retry triggered by the grant flow — and then
terminates (classifying the second failure and exiting); and from any
attempt index other than 0 the recursion guard forbids a further
attempt, so a third attempt for the same logical call is impossible. -/
theorem pipeline_retry_bound (sess : String) (resp : Nat → ProxyResponse)
    (method endpoint : String) (body : Option String) (options : OfficeCli.OfficeOptions)
    (d : AuthData)
    (hst : ∀ k, (resp k).status = 403)
    (hdata : ∀ k, (resp k).data = some d)
    (hrn : NotionQuery.isAutoRequestError (some d) = true)
    (hro : OfficeCli.isAutoRequestError (some d) = true) :
    ((NotionQuery.notionApi true (some sess) resp .ok method endpoint body 0).requests.length = 2 ∧
      (NotionQuery.notionApi true (some sess) resp .ok method endpoint body 0).outcome =
        .exitedAuth (NotionQuery.describeAuthError (some d))) ∧
    ((OfficeCli.apiRequest true (some sess) resp .ok endpoint options 0).requests.length = 2 ∧
      (OfficeCli.apiRequest true (some sess) resp .ok endpoint options 0).outcome =
        .exitedAuth (OfficeCli.describeAuthError d.toAuthFields)) ∧
    (∀ a, a ≠ 0 →
      (NotionQuery.notionApi true (some sess) resp .ok method endpoint body a).requests.length = 1) ∧
    (∀ a, a ≠ 0 →
      (OfficeCli.apiRequest true (some sess) resp .ok endpoint options a).requests.length = 1) := by
  have hn1 := notionApi_no_retry true sess resp .ok method endpoint body 1 one_ne_zero d
    (hst 1) (hdata 1)
  have ho1 := apiRequest_no_retry true sess resp .ok endpoint options 1 one_ne_zero d
    (hst 1) (hdata 1)
  refine ⟨?_, ?_, ?_, ?_⟩
  · rw [NotionQuery.notionApi.eq_def]
    simp [hst 0, hdata 0, hrn, hn1]
  · rw [OfficeCli.apiRequest.eq_def]
    simp [hst 0, hdata 0, hro, ho1]
  · intro a ha
    rw [notionApi_no_retry true sess resp .ok method endpoint body a ha d (hst a) (hdata a)]
    rfl
  · intro a ha
    rw [apiRequest_no_retry true sess resp .ok endpoint options a ha d (hst a) (hdata a)]
    rfl

theorem pipeline_retry_bound_witness :
    ((NotionQuery.notionApi true (some "sess")
        (fun _ => { status := 403, data := some { error := some "no_grant" } })
        .ok "GET" "/users/me" none 0).requests.length = 2 ∧
      (NotionQuery.notionApi true (some "sess")
        (fun _ => { status := 403, data := some { error := some "no_grant" } })
        .ok "GET" "/users/me" none 0).outcome =
        .exitedAuth (NotionQuery.describeAuthError (some { error := some "no_grant" }))) ∧
    ((OfficeCli.apiRequest true (some "sess")
        (fun _ => { status := 403, data := some { error := some "no_grant" } })
        .ok "/users/me" {} 0).requests.length = 2 ∧
      (OfficeCli.apiRequest true (some "sess")
        (fun _ => { status := 403, data := some { error := some "no_grant" } })
        .ok "/users/me" {} 0).outcome =
        .exitedAuth (OfficeCli.describeAuthError
          (AuthData.toAuthFields { error := some "no_grant" }))) ∧
    (∀ a, a ≠ 0 →
      (NotionQuery.notionApi true (some "sess")
        (fun _ => { status := 403, data := some { error := some "no_grant" } })
        .ok "GET" "/users/me" none a).requests.length = 1) ∧
    (∀ a, a ≠ 0 →
      (OfficeCli.apiRequest true (some "sess")
        (fun _ => { status := 403, data := some { error := some "no_grant" } })
        .ok "/users/me" {} a).requests.length = 1) :=
  pipeline_retry_bound "sess" (fun _ => { status := 403, data := some { error := some "no_grant" } })
    "GET" "/users/me" none {} { error := some "no_grant" }
    (fun _ => rfl) (fun _ => rfl) (by decide) (by decide)

/-- C7: a pipeline call made while no agent session can be loaded
terminates the process with exit code 1 and a message instructing the
user to run the login command, issuing no HTTP request at all (so in
particular none to the proxy endpoint). -/
theorem no_session_exits_without_request (auto : Bool) (resp : Nat → ProxyResponse)
    (grant : GrantFlowResult) (method endpoint : String) (body : Option String)
    (options : OfficeCli.OfficeOptions) (attempt : Nat) :
    NotionQuery.notionApi auto none resp grant method endpoint body attempt =
      { outcome := .exitedMsg "No agent session. Run \x27node notion-query.js login\x27 first."
        requests := [] } ∧
    OfficeCli.apiRequest auto none resp grant endpoint options attempt =
      { outcome := .exitedMsg "Not registered. Run \x27login\x27 to create an agent session."
        requests := [] } := by
  constructor
  · rw [NotionQuery.notionApi]
  · rw [OfficeCli.apiRequest]

theorem notionApi_requests_shape (auto : Bool) (sess : String) (resp : Nat → ProxyResponse)
    (grant : GrantFlowResult) (method endpoint : String) (body : Option String) :
    ∀ (a : Nat) (req : RequestRec),
      req ∈ (NotionQuery.notionApi auto (some sess) resp grant method endpoint body a).requests →
      req = { url := NOTION_PROXY_BASE ++ endpoint, method := method,
              headers := NotionQuery.notionHeaders sess body.isSome,
              hasBody := body.isSome } := by
  have base : ∀ (a : Nat), a ≠ 0 → ∀ (req : RequestRec),
      req ∈ (NotionQuery.notionApi auto (some sess) resp grant method endpoint body a).requests →
      req = { url := NOTION_PROXY_BASE ++ endpoint, method := method,
              headers := NotionQuery.notionHeaders sess body.isSome,
              hasBody := body.isSome } := by
    intro a ha req hreq
    rw [NotionQuery.notionApi.eq_def] at hreq
    simp only [] at hreq
    repeat' split at hreq
    all_goals simp_all
  intro a req hreq
  by_cases ha : a = 0
  · subst ha
    rw [NotionQuery.notionApi.eq_def] at hreq
    simp only [] at hreq
    split at hreq
    · split at hreq
      · split at hreq
        · simp at hreq
          rcases hreq with h | h
          · exact h
          · exact base (0 + 1) (by simp) req h
        · simp_all
        · simp_all
        · simp_all
      · split at hreq <;> simp_all
    · split at hreq
      · split at hreq
        · repeat' split at hreq
          all_goals simp_all
        · simp_all
      · split at hreq
        · repeat' split at hreq
          all_goals simp_all
        · simp_all
  · exact base a ha req hreq

theorem apiRequest_requests_shape (auto : Bool) (sess : String) (resp : Nat → ProxyResponse)
    (grant : GrantFlowResult) (endpoint : String) (options : OfficeCli.OfficeOptions) :
    ∀ (a : Nat) (req : RequestRec),
      req ∈ (OfficeCli.apiRequest auto (some sess) resp grant endpoint options a).requests →
      req = { url := API_BASE ++ endpoint, method := jsOr options.method "GET",
              headers := OfficeCli.officeHeaders sess options.headers,
              hasBody := options.body.isSome } := by
  have base : ∀ (a : Nat), a ≠ 0 → ∀ (req : RequestRec),
      req ∈ (OfficeCli.apiRequest auto (some sess) resp grant endpoint options a).requests →
      req = { url := API_BASE ++ endpoint, method := jsOr options.method "GET",
              headers := OfficeCli.officeHeaders sess options.headers,
              hasBody := options.body.isSome } := by
    intro a ha req hreq
    rw [OfficeCli.apiRequest.eq_def] at hreq
    simp only [] at hreq
    repeat' split at hreq
    all_goals simp_all
  intro a req hreq
  by_cases ha : a = 0
  · subst ha
    rw [OfficeCli.apiRequest.eq_def] at hreq
    simp only [] at hreq
    split at hreq
    · split at hreq
      · split at hreq
        · simp at hreq
          rcases hreq with h | h
          · exact h
          · exact base (0 + 1) (by simp) req h
        · simp_all
        · simp_all
        · simp_all
      · split at hreq <;> simp_all
    · split at hreq
      · split at hreq
        · repeat' split at hreq
          all_goals simp_all
        · simp_all
      · split at hreq <;> simp_all
  · exact base a ha req hreq

theorem notionHeaders_lookup_session (sess : String) (hb : Bool) :
    headerLookup (NotionQuery.notionHeaders sess hb) "X-Agent-Session" = some sess := by
  cases hb <;> simp [NotionQuery.notionHeaders, headerLookup, List.lookup]

theorem notionHeaders_lookup_ctype (sess : String) (hb : Bool) :
    headerLookup (NotionQuery.notionHeaders sess hb) "Content-Type" =
      (if hb then some "application/json" else none) := by
  cases hb <;> simp [NotionQuery.notionHeaders, headerLookup, List.lookup]

theorem officeHeaders_default (sess : String) :
    OfficeCli.officeHeaders sess [] =
      [("X-Agent-Session", sess), ("Content-Type", "application/json")] := by
  simp [OfficeCli.officeHeaders, mergeHeaders]

/-- C10 counterexample: an office-cli `apiRequest` call with no body
(and default options) still sends a `Content-Type: application/json`
header — the header is set unconditionally, so "no content-type header
without a body" fails for office-cli.js. -/
theorem office_content_type_without_body :
    (OfficeCli.apiRequest true (some "sess") (fun _ => { status := 200 }) .ok "/me" {} 0).requests =
      [{ url := API_BASE ++ "/me", method := "GET",
         headers := [("X-Agent-Session", "sess"), ("Content-Type", "application/json")],
         hasBody := false }] ∧
    headerLookup [("X-Agent-Session", "sess"), ("Content-Type", "application/json")]
        "Content-Type" = some "application/json" := by
  constructor
  · rw [OfficeCli.apiRequest.eq_def]
    simp [OfficeCli.officeHeaders, mergeHeaders, jsOr, truthyS, respOk]
  · simp [headerLookup, List.lookup]

/-- C10 amended: every request a pipeline call issues carries the
session header; notion-query.js sends a content-type header exactly
when the call has a body, while office-cli.js `apiRequest` (with
default `options.headers`) sends `Content-Type: application/json` on
every request, body or not. -/
theorem pipeline_headers (auto : Bool) (sess : String) (resp : Nat → ProxyResponse)
    (grant : GrantFlowResult) (method endpoint : String) (body : Option String)
    (m b : Option String) (a : Nat) :
    (∀ req ∈ (NotionQuery.notionApi auto (some sess) resp grant method endpoint body a).requests,
      headerLookup req.headers "X-Agent-Session" = some sess ∧
      headerLookup req.headers "Content-Type" =
        (if body.isSome then some "application/json" else none) ∧
      req.hasBody = body.isSome) ∧
    (∀ req ∈ (OfficeCli.apiRequest auto (some sess) resp grant endpoint
        { method := m, body := b, headers := [] } a).requests,
      headerLookup req.headers "X-Agent-Session" = some sess ∧
      headerLookup req.headers "Content-Type" = some "application/json" ∧
      req.hasBody = b.isSome) := by
  constructor
  · intro req hreq
    have h := notionApi_requests_shape auto sess resp grant method endpoint body a req hreq
    subst h
    exact ⟨notionHeaders_lookup_session sess body.isSome,
      notionHeaders_lookup_ctype sess body.isSome, rfl⟩
  · intro req hreq
    have h := apiRequest_requests_shape auto sess resp grant endpoint
      { method := m, body := b, headers := [] } a req hreq
    subst h
    refine ⟨?_, ?_, rfl⟩
    · rw [officeHeaders_default]
      simp [headerLookup, List.lookup]
    · rw [officeHeaders_default]
      simp [headerLookup, List.lookup]

theorem pipeline_headers_witness :
    headerLookup (NotionQuery.notionHeaders "sess" false) "X-Agent-Session" = some "sess" ∧
    headerLookup (NotionQuery.notionHeaders "sess" false) "Content-Type" = none ∧
    headerLookup (OfficeCli.officeHeaders "sess" []) "X-Agent-Session" = some "sess" ∧
    headerLookup (OfficeCli.officeHeaders "sess" []) "Content-Type" = some "application/json" := by
  have hmemN : ({ url := NOTION_PROXY_BASE ++ "/users/me", method := "GET",
                  headers := NotionQuery.notionHeaders "sess" false,
                  hasBody := false } : RequestRec) ∈
      (NotionQuery.notionApi true (some "sess") (fun _ => { status := 200 })
        .ok "GET" "/users/me" none 0).requests := by
    rw [NotionQuery.notionApi.eq_def]
    simp [respOk]
  have hmemO : ({ url := API_BASE ++ "/me", method := "GET",
                  headers := OfficeCli.officeHeaders "sess" [],
                  hasBody := false } : RequestRec) ∈
      (OfficeCli.apiRequest true (some "sess") (fun _ => { status := 200 })
        .ok "/me" { method := none, body := none, headers := [] } 0).requests := by
    rw [OfficeCli.apiRequest.eq_def]
    simp [respOk, jsOr, truthyS]
  have h1 := (pipeline_headers true "sess" (fun _ => { status := 200 }) .ok "GET" "/users/me"
    none none none 0).1 _ hmemN
  have h2 := (pipeline_headers true "sess" (fun _ => { status := 200 }) .ok "GET" "/me"
    none none none 0).2 _ hmemO
  exact ⟨h1.1, h1.2.1, h2.1, h2.2.1⟩

/-- C9: on a content endpoint, a 301/302 response with a `Location`
header triggers exactly one follow-up GET to that location, in both
`driveDownload` and `driveContent`; the initial `fetchGraphContent`
request carries the `X-Agent-Session` header and the follow-up request
carries no headers at all (in particular no session header). -/
theorem redirect_single_unauthenticated_follow (sess itemId : String)
    (first : OfficeCli.GResponse) (follow : String → OfficeCli.GResponse) (loc : String)
    (hst : first.status = 301 ∨ first.status = 302) (hloc : first.location = some loc) :
    (OfficeCli.driveDownloadFetch sess itemId first follow).2 =
      [OfficeCli.fetchGraphContentReq sess ("/me/drive/items/" ++ itemId ++ "/content"),
       { url := loc, method := "GET", headers := [], hasBody := false }] ∧
    (OfficeCli.driveContentFetch sess itemId first follow).2 =
      [OfficeCli.fetchGraphContentReq sess ("/me/drive/items/" ++ itemId ++ "/content"),
       { url := loc, method := "GET", headers := [], hasBody := false }] ∧
    headerLookup (OfficeCli.fetchGraphContentReq sess
        ("/me/drive/items/" ++ itemId ++ "/content")).headers "X-Agent-Session" = some sess ∧
    headerLookup ({ url := loc, method := "GET", headers := [],
                    hasBody := false } : RequestRec).headers "X-Agent-Session" = none := by
  refine ⟨?_, ?_, ?_, ?_⟩
  · rcases hst with h | h <;> simp [OfficeCli.driveDownloadFetch, h, hloc]
  · rcases hst with h | h <;> simp [OfficeCli.driveContentFetch, h, hloc]
  · simp [OfficeCli.fetchGraphContentReq, headerLookup, List.lookup]
  · simp [headerLookup, List.lookup]

theorem redirect_single_unauthenticated_follow_witness :
    (OfficeCli.driveDownloadFetch "sess" "item1"
        { status := 302, location := some "https://dl.example.test/x" }
        (fun _ => { status := 200 })).2 =
      [OfficeCli.fetchGraphContentReq "sess" ("/me/drive/items/" ++ "item1" ++ "/content"),
       { url := "https://dl.example.test/x", method := "GET", headers := [], hasBody := false }] ∧
    (OfficeCli.driveContentFetch "sess" "item1"
        { status := 302, location := some "https://dl.example.test/x" }
        (fun _ => { status := 200 })).2 =
      [OfficeCli.fetchGraphContentReq "sess" ("/me/drive/items/" ++ "item1" ++ "/content"),
       { url := "https://dl.example.test/x", method := "GET", headers := [], hasBody := false }] ∧
    headerLookup (OfficeCli.fetchGraphContentReq "sess"
        ("/me/drive/items/" ++ "item1" ++ "/content")).headers "X-Agent-Session" = some "sess" ∧
    headerLookup ({ url := "https://dl.example.test/x", method := "GET", headers := [],
                    hasBody := false } : RequestRec).headers "X-Agent-Session" = none :=
  redirect_single_unauthenticated_follow "sess" "item1"
    { status := 302, location := some "https://dl.example.test/x" }
    (fun _ => { status := 200 }) "https://dl.example.test/x" (Or.inr rfl) rfl

theorem trimChars_append_newline (l : List Char) :
    trimChars (trimChars l ++ ['\n']) = trimChars l := by
  unfold trimChars
  cases ht : (l.dropWhile isJsWs).rdropWhile isJsWs with
  | nil => decide
  | cons c cs =>
    obtain ⟨s, hs⟩ := List.rdropWhile_prefix isJsWs (l.dropWhile isJsWs)
    rw [ht] at hs
    have hne : l.dropWhile isJsWs ≠ [] := by
      rw [← hs]
      simp
    have hhead : (l.dropWhile isJsWs).head hne = c := by
      have h2 : l.dropWhile isJsWs = c :: (cs ++ s) := by
        rw [← hs, List.cons_append]
      simp [h2]
    have hc : isJsWs c = false := by
      rw [← hhead]
      exact List.head_dropWhile_not isJsWs l hne
    rw [List.cons_append, List.dropWhile_cons_of_neg (by simp [hc]), ← List.cons_append]
    rw [List.rdropWhile_concat_pos isJsWs (c :: cs) '\n' (by decide)]
    rw [← ht]
    exact List.rdropWhile_idempotent isJsWs (l.dropWhile isJsWs)

theorem jsTrim_append_newline (s : String) :
    jsTrim (jsTrim s ++ "\n") = jsTrim s := by
  unfold jsTrim
  have hd : (String.mk (trimChars s.data) ++ "\n").data = trimChars s.data ++ ['\n'] := by
    simp [String.data_append]
  rw [hd, trimChars_append_newline]

/-- C8 counterexample: saving the session id "123" and immediately
loading returns nothing, not "123": the file content "123" JSON-parses
to a number, whose session-id fields are all undefined, so the loader
skips the file and, with no other candidate, yields absence. -/
theorem save_then_load_counterexample :
    getAgentSession ["file"] (saveAgentSession "file" (fun _ => none) "123") = none ∧
    jsTrim "123" = "123" := by
  constructor
  · decide
  · decide

/-- C8 amended: for every session id whose trimmed text is nonblank and
is not parseable as JSON (which holds for the broker's opaque session
tokens), `saveAgentSession(id)` followed immediately by
`getAgentSession()` returns the id trimmed of surrounding whitespace;
ids whose trimmed text parses as JSON are reinterpreted by the loader
instead of being returned verbatim. -/
theorem save_then_load_roundtrip (shared : String) (legacy : List String)
    (fs : String → Option String) (id : String)
    (hne : jsTrim id ≠ "") (hparse : parseJson (jsTrim id) = none) :
    getAgentSession (shared :: legacy) (saveAgentSession shared fs id) =
      some (jsTrim id) := by
  rw [getAgentSession]
  rw [show saveAgentSession shared fs id shared = some (jsTrim id ++ "\n") from by
    simp [saveAgentSession]]
  simp only []
  rw [jsTrim_append_newline]
  simp [hne, hparse]

theorem save_then_load_roundtrip_witness :
    getAgentSession ["f"] (saveAgentSession "f" (fun _ => none) "sess-abc") =
      some (jsTrim "sess-abc") ∧ jsTrim "sess-abc" = "sess-abc" :=
  ⟨save_then_load_roundtrip "f" [] (fun _ => none) "sess-abc" (by decide) rfl,
    by decide⟩
